import Mathlib

/-!
Shallow embedding of pyrad process_aux.py (module pyrad.proc.process_aux):
get_process_type, process_raw, process_save_radar and
process_point_measurement.

Modelling conventions:
* numpy float64 scalars and arrays are modelled as rationals and lists of
  rationals; the claims under study concern exact formulas, comparisons and
  index selection, not machine rounding.
* the pyart Radar object is modelled by the structure Radar below with the
  attributes the source reads; the source reads the scalar content of the
  one element arrays longitude, latitude and altitude (and of the results
  of the geometry calls, via the trailing [0] indexing), so those are
  modelled as scalars.
* external collaborators (pyart geometry, netCDF4 num2date, the io_aux
  helpers get_datatype_fields and get_fieldname_pyart) are not part of this
  module; the embedded code is parametric in them, gathered in the
  structure PyartEnv, exactly as the source module is parametric in its
  imports.
* the warn calls of the source build a message string by interpolating
  numeric values; a diagnostic is modelled as a constructor naming the
  message kind together with the interpolated values (string formatting is
  injective on those values).
* python exceptions are modelled with Except.  The namespace of the module
  process_aux.py binds (import lines 19 to 28) deepcopy, warn, np, pyart,
  get_datatype_fields, get_fieldname_pyart and num2date, and binds no name
  antenna_to_cartesian nor cartesian_to_geographic; hence the calls on
  lines 281 and 282 raise NameError when reached, which the embedding
  records as an Except.error value.
* arrays indexed in the source are modelled with List.getD; the claims only
  exercise in bounds indices.
-/

/-- The attributes of the pyart Radar object that process_aux.py reads:
per ray arrays azimuth, elevation and time (degrees, degrees, time units),
the shared per bin array range (meters), the field dictionary mapping a
field name to its 2D data array [ray][bin], and the radar site scalars. -/
structure Radar where
  azimuth : List ℚ
  elevation : List ℚ
  range : List ℚ
  time : List ℚ
  time_units : String
  time_calendar : String
  fields : List (String × List (List ℚ))
  longitude : ℚ
  latitude : ℚ
  altitude : ℚ
  deriving DecidableEq

/-- The configuration keys of the point measurement step that the source
reads (dscfg).  The datatype key holds a list of datatype descriptors, of
which the source reads element 0. -/
structure DsCfg where
  datatype : List String
  latlon : Bool
  truealt : Bool
  lon : ℚ
  lat : ℚ
  alt : ℚ
  ele : ℚ
  azi : ℚ
  rng : ℚ
  AziTol : ℚ
  EleTol : ℚ
  RngTol : ℚ
  deriving DecidableEq

/-- Diagnostics emitted through warn in process_point_measurement, modelled
by their kind and the numeric values interpolated into the message. -/
inductive Warn where
  | fieldNotAvailable : Warn
  | noBinAz (az el r d : ℚ) : Warn
  | noBinEl (az el r d : ℚ) : Warn
  | noBinRng (az el r d : ℚ) : Warn
  deriving DecidableEq

/-- Python exceptions reachable in the embedded code. -/
inductive PyErr where
  | nameError (missing : String) : PyErr
  deriving DecidableEq

/-- The dictionary returned by process_point_measurement (line 317 on). -/
structure PointRecord where
  value : ℚ
  datatype : String
  time : ℚ
  point_coordinates_WGS84_lon_lat_alt : ℚ × ℚ × ℚ
  antenna_coordinates_az_el_r : ℚ × ℚ × ℚ
  used_antenna_coordinates_az_el_r : ℚ × ℚ × ℚ
  deriving DecidableEq

/-- The external functions the module imports: the io_aux helpers, the
pyart geometry functions, num2date and the numpy scalar functions used.
The third argument of geographic_to_cartesian is the projection parameter
pair (lon_0, lat_0); cartesian_to_antenna returns (range, azimuth,
elevation).  np.pi is the field pi. -/
structure PyartEnv where
  get_datatype_fields : String → String × String × String × String
  get_fieldname_pyart : String → String
  geographic_to_cartesian : ℚ → ℚ → ℚ × ℚ → ℚ × ℚ
  cartesian_to_antenna : ℚ → ℚ → ℚ → ℚ × ℚ × ℚ
  num2date : ℚ → String → String → ℚ
  sqrt : ℚ → ℚ
  cos : ℚ → ℚ
  sin : ℚ → ℚ
  pi : ℚ

/-- np.abs on a scalar. -/
def npAbs (q : ℚ) : ℚ := if q < 0 then -q else q

/-- np.min on a nonempty array: the minimum of the list (0 on the empty
list, which the source never reaches on the volumes the claims concern). -/
def npMin : List ℚ → ℚ
  | [] => 0
  | [x] => x
  | x :: y :: l => min x (npMin (y :: l))

/-- np.argmin on a nonempty array: the least index at which the minimum is
attained (numpy returns the first occurrence of the minimum). -/
def npArgmin : List ℚ → Nat
  | [] => 0
  | [_] => 0
  | x :: y :: l => if x ≤ npMin (y :: l) then 0 else npArgmin (y :: l) + 1

/-- Embedding of get_process_type (process_aux.py lines 31 to 118): the
if/elif chain mapping a dataset type to (func_name, dsformat), with
dsformat initialised to VOL and overridden only in the SUN_HITS and
POINT_MEASUREMENT branches; the final else raises ValueError, modelled as
Except.error carrying the message string. -/
def get_process_type (dataset_type : String) : Except String (String × String) :=
  if dataset_type = "RAW" then Except.ok ("process_raw", "VOL")
  else if dataset_type = "NCVOL" then Except.ok ("process_save_radar", "VOL")
  else if dataset_type = "PWR" then Except.ok ("process_signal_power", "VOL")
  else if dataset_type = "SNR" then Except.ok ("process_snr", "VOL")
  else if dataset_type = "RHOHV_CORRECTION" then Except.ok ("process_correct_noise_rhohv", "VOL")
  else if dataset_type = "BIAS_CORRECTION" then Except.ok ("process_correct_bias", "VOL")
  else if dataset_type = "L" then Except.ok ("process_l", "VOL")
  else if dataset_type = "CDR" then Except.ok ("process_cdr", "VOL")
  else if dataset_type = "SAN" then Except.ok ("process_echo_id", "VOL")
  else if dataset_type = "ECHO_FILTER" then Except.ok ("process_echo_filter", "VOL")
  else if dataset_type = "SNR_FILTER" then Except.ok ("process_filter_snr", "VOL")
  else if dataset_type = "VIS_FILTER" then Except.ok ("process_filter_visibility", "VOL")
  else if dataset_type = "PHIDP0_ESTIMATE" then Except.ok ("process_estimate_phidp0", "VOL")
  else if dataset_type = "PHIDP0_CORRECTION" then Except.ok ("process_correct_phidp0", "VOL")
  else if dataset_type = "PHIDP_SMOOTH_1W" then Except.ok ("process_smooth_phidp_single_window", "VOL")
  else if dataset_type = "PHIDP_SMOOTH_2W" then Except.ok ("process_smooth_phidp_double_window", "VOL")
  else if dataset_type = "PHIDP_KDP_MAESAKA" then Except.ok ("process_phidp_kdp_Maesaka", "VOL")
  else if dataset_type = "PHIDP_KDP_LP" then Except.ok ("process_phidp_kdp_lp", "VOL")
  else if dataset_type = "KDP_LEASTSQUARE_1W" then Except.ok ("process_kdp_leastsquare_single_window", "VOL")
  else if dataset_type = "KDP_LEASTSQUARE_2W" then Except.ok ("process_kdp_leastsquare_double_window", "VOL")
  else if dataset_type = "ATTENUATION" then Except.ok ("process_attenuation", "VOL")
  else if dataset_type = "RAINRATE" then Except.ok ("process_rainrate", "VOL")
  else if dataset_type = "HYDROCLASS" then Except.ok ("process_hydroclass", "VOL")
  else if dataset_type = "SELFCONSISTENCY_KDP_PHIDP" then Except.ok ("process_selfconsistency_kdp_phidp", "VOL")
  else if dataset_type = "SELFCONSISTENCY_BIAS" then Except.ok ("process_selfconsistency_bias", "VOL")
  else if dataset_type = "RHOHV_RAIN" then Except.ok ("process_rhohv_rain", "VOL")
  else if dataset_type = "ZDR_RAIN" then Except.ok ("process_zdr_rain", "VOL")
  else if dataset_type = "MONITORING_RHOHV" then Except.ok ("process_monitoring_rhohv", "VOL")
  else if dataset_type = "MONITORING_ZDR" then Except.ok ("process_monitoring_zdr", "VOL")
  else if dataset_type = "SUN_HITS" then Except.ok ("process_sun_hits", "SUN_HITS")
  else if dataset_type = "POINT_MEASUREMENT" then Except.ok ("process_point_measurement", "TIMESERIES")
  else Except.error ("ERROR: Unknown dataset type " ++ dataset_type)

/-- The dataset types recognised by the if/elif chain of get_process_type,
in source order. -/
def recognized_dataset_types : List String :=
  ["RAW", "NCVOL", "PWR", "SNR", "RHOHV_CORRECTION", "BIAS_CORRECTION",
   "L", "CDR", "SAN", "ECHO_FILTER", "SNR_FILTER", "VIS_FILTER",
   "PHIDP0_ESTIMATE", "PHIDP0_CORRECTION", "PHIDP_SMOOTH_1W",
   "PHIDP_SMOOTH_2W", "PHIDP_KDP_MAESAKA", "PHIDP_KDP_LP",
   "KDP_LEASTSQUARE_1W", "KDP_LEASTSQUARE_2W", "ATTENUATION", "RAINRATE",
   "HYDROCLASS", "SELFCONSISTENCY_KDP_PHIDP", "SELFCONSISTENCY_BIAS",
   "RHOHV_RAIN", "ZDR_RAIN", "MONITORING_RHOHV", "MONITORING_ZDR",
   "SUN_HITS", "POINT_MEASUREMENT"]

/-- deepcopy on a list of rationals (an elementwise copy). -/
def deepcopy_list (l : List ℚ) : List ℚ := l.map id

/-- copy.deepcopy on the Radar object: a recursive copy of every attribute
(the field dictionary is copied entry by entry, each 2D array row by row). -/
def deepcopy_Radar (radar : Radar) : Radar where
  azimuth := deepcopy_list radar.azimuth
  elevation := deepcopy_list radar.elevation
  range := deepcopy_list radar.range
  time := deepcopy_list radar.time
  time_units := radar.time_units
  time_calendar := radar.time_calendar
  fields := radar.fields.map (fun p => (p.1, p.2.map deepcopy_list))
  longitude := radar.longitude
  latitude := radar.latitude
  altitude := radar.altitude

/-- Embedding of process_raw (process_aux.py lines 121 to 148): return None
unless procstatus is 1, otherwise return a deepcopy of the radar argument
(deepcopy of None is None, modelled by Option.map). -/
def process_raw (procstatus : ℤ) (dscfg : DsCfg) (radar : Option Radar) :
    Option Radar :=
  if procstatus ≠ 1 then none
  else radar.map deepcopy_Radar

/-- Embedding of process_save_radar (process_aux.py lines 151 to 178): the
same body as process_raw. -/
def process_save_radar (procstatus : ℤ) (dscfg : DsCfg) (radar : Option Radar) :
    Option Radar :=
  if procstatus ≠ 1 then none
  else radar.map deepcopy_Radar

/-- Embedding of lines 284 to 329 of process_point_measurement: the three
tolerance gates (azimuth, elevation, range, in that order, each returning
None with one warning), then the joint ray argmin, the range bin argmin and
the assembly of the returned dictionary.  The arguments lon lat alt az el r
are the local variables of those names at line 284, datatype and data are
the datatype descriptor and the data array of the selected field. -/
def select_point_record (env : PyartEnv) (dscfg : DsCfg) (radar : Radar)
    (datatype : String) (data : List (List ℚ)) (lon lat alt az el r : ℚ) :
    List Warn × Option PointRecord :=
  let d_az := npMin (radar.azimuth.map (fun v => npAbs (v - az)))
  if d_az > dscfg.AziTol then
    ([Warn.noBinAz az el r d_az], none)
  else
    let d_el := npMin (radar.elevation.map (fun v => npAbs (v - el)))
    if d_el > dscfg.EleTol then
      ([Warn.noBinEl az el r d_el], none)
    else
      let d_r := npMin (radar.range.map (fun v => npAbs (v - r)))
      if d_r > dscfg.RngTol then
        ([Warn.noBinRng az el r d_r], none)
      else
        let ind_ray := npArgmin (List.zipWith
          (fun a e => npAbs (a - az) + npAbs (e - el)) radar.azimuth radar.elevation)
        let ind_r := npArgmin (radar.range.map (fun v => npAbs (v - r)))
        let val := (data.getD ind_ray []).getD ind_r 0
        let time := env.num2date (radar.time.getD ind_ray 0)
          radar.time_units radar.time_calendar
        ([], some
          { value := val
            datatype := datatype
            time := time
            point_coordinates_WGS84_lon_lat_alt := (lon, lat, alt)
            antenna_coordinates_az_el_r := (az, el, r)
            used_antenna_coordinates_az_el_r :=
              (radar.azimuth.getD ind_ray 0, radar.elevation.getD ind_ray 0,
               radar.range.getD ind_r 0) })

/-- Embedding of process_point_measurement (process_aux.py lines 181 to
329).  The result couples the warnings emitted with either a raised
exception (Except.error) or the returned value (Except.ok: None or the
point record).  In the latlon branch the source computes, when truealt is
false, the altitude of the target from the beam model inline (lines 257 to
267) and converts (x, y, alt_radar - radar.altitude) to antenna
coordinates; in the antenna branch (lines 276 to 282) the call on line 281
is to the unbound name antenna_to_cartesian and raises NameError. -/
def process_point_measurement (env : PyartEnv) (procstatus : ℤ)
    (dscfg : DsCfg) (radar : Radar) :
    List Warn × Except PyErr (Option PointRecord) :=
  if procstatus ≠ 1 then ([], Except.ok none)
  else
    let datatype := (env.get_datatype_fields (dscfg.datatype.getD 0 "")).2.1
    let field_name := env.get_fieldname_pyart datatype
    match radar.fields.lookup field_name with
    | none => ([Warn.fieldNotAvailable], Except.ok none)
    | some data =>
      let projparams := (radar.longitude, radar.latitude)
      if dscfg.latlon then
        let lon := dscfg.lon
        let lat := dscfg.lat
        let alt := dscfg.alt
        let xy := env.geographic_to_cartesian lon lat projparams
        let x := xy.1
        let y := xy.2
        let alt_radar :=
          if !dscfg.truealt then
            let ke : ℚ := 4 / 3
            let a : ℚ := 6378100
            let re := a * ke
            let elrad := dscfg.ele * env.pi / 180
            let r_ground := env.sqrt (x ^ 2 + y ^ 2)
            let r := r_ground / env.cos elrad
            radar.altitude +
              env.sqrt (r ^ 2 + re ^ 2 + 2 * r * re * env.sin elrad) - re
          else dscfg.alt
        let rae := env.cartesian_to_antenna x y (alt_radar - radar.altitude)
        let r := rae.1
        let az := rae.2.1
        let el := rae.2.2
        let res := select_point_record env dscfg radar datatype data
          lon lat alt az el r
        (res.1, Except.ok res.2)
      else
        ([], Except.error (PyErr.nameError "antenna_to_cartesian"))

/-- Beam height above the radar written as the spec (section 4.2) words it:
effective radius re = (4/3) times 6378100 m, slant range r = r_ground
divided by cos(el), height = sqrt(r^2 + re^2 + 2 r re sin(el)) - re. -/
def spec_beam_height_above_radar (sqrt cos sin : ℚ → ℚ)
    (r_ground el_rad : ℚ) : ℚ :=
  let re : ℚ := 4 / 3 * 6378100
  let r := r_ground / cos el_rad
  sqrt (r ^ 2 + re ^ 2 + 2 * r * re * sin el_rad) - re

/-- A concrete instantiation of the external environment, used to evaluate
the embedding at concrete inputs (the identity in every function slot). -/
def env0 : PyartEnv where
  get_datatype_fields := fun s => (s, s, s, s)
  get_fieldname_pyart := fun s => s
  geographic_to_cartesian := fun x y _ => (x, y)
  cartesian_to_antenna := fun x y z => (x, y, z)
  num2date := fun t _ _ => t
  sqrt := fun q => q
  cos := fun q => q
  sin := fun q => q
  pi := 3

/-- The volume of the bin selection example of the spec (section 8): rays
with (azimuth, elevation) pairs (10, 1) and (10, 5), bins 500 m and
1500 m, one field. -/
def wradar : Radar where
  azimuth := [10, 10]
  elevation := [1, 5]
  range := [500, 1500]
  time := [3, 7]
  time_units := "u"
  time_calendar := "c"
  fields := [("dBZ", [[1, 2], [3, 4]])]
  longitude := 0
  latitude := 0
  altitude := 0

/-- Generous tolerances for the bin selection example. -/
def wcfg : DsCfg where
  datatype := ["dBZ"]
  latlon := true
  truealt := true
  lon := 0
  lat := 0
  alt := 0
  ele := 0
  azi := 0
  rng := 0
  AziTol := 30
  EleTol := 30
  RngTol := 200

/-- The volume of the tolerance gating example of the spec (section 8):
rays at azimuths 10, 20, 30 degrees. -/
def radar_gates : Radar where
  azimuth := [10, 20, 30]
  elevation := [0, 0, 0]
  range := [1000, 2000]
  time := [0, 0, 0]
  time_units := "u"
  time_calendar := "c"
  fields := [("dBZ", [[1, 2], [3, 4], [5, 6]])]
  longitude := 0
  latitude := 0
  altitude := 0

/-- The gating example configuration, with azimuth tolerance t. -/
def gates_cfg (t : ℚ) : DsCfg where
  datatype := ["dBZ"]
  latlon := false
  truealt := false
  lon := 0
  lat := 0
  alt := 0
  ele := 0
  azi := 25
  rng := 1000
  AziTol := t
  EleTol := 1
  RngTol := 50

/-- A geographic mode configuration (latlon true, truealt false). -/
def geo_cfg : DsCfg where
  datatype := ["dBZ"]
  latlon := true
  truealt := false
  lon := 7
  lat := 2
  alt := 500
  ele := 1
  azi := 0
  rng := 0
  AziTol := 100
  EleTol := 100
  RngTol := 100000

/-- An antenna mode configuration (latlon false). -/
def antenna_cfg : DsCfg where
  datatype := ["dBZ"]
  latlon := false
  truealt := false
  lon := 0
  lat := 0
  alt := 0
  ele := 1
  azi := 10
  rng := 1000
  AziTol := 100
  EleTol := 100
  RngTol := 1000

/-- A configuration selecting a field absent from wradar (antenna mode). -/
def no_field_cfg : DsCfg where
  datatype := ["VEL"]
  latlon := false
  truealt := false
  lon := 0
  lat := 0
  alt := 0
  ele := 1
  azi := 10
  rng := 1000
  AziTol := 100
  EleTol := 100
  RngTol := 1000

theorem npMin_le_getD : ∀ (l : List ℚ) (i : Nat), i < l.length →
    npMin l ≤ l.getD i 0
  | [], i, h => absurd h (by simp)
  | [x], 0, _ => le_refl x
  | [x], i + 1, h => absurd h (by simp)
  | x :: y :: l, 0, _ => by
      simp only [npMin, List.getD_cons_zero]
      exact min_le_left _ _
  | x :: y :: l, i + 1, h => by
      simp only [npMin, List.getD_cons_succ]
      exact le_trans (min_le_right _ _)
        (npMin_le_getD (y :: l) i (by simpa using h))

theorem npArgmin_lt_length : ∀ (l : List ℚ), l ≠ [] → npArgmin l < l.length
  | [], h => absurd rfl h
  | [_], _ => by simp [npArgmin]
  | x :: y :: l, _ => by
      simp only [npArgmin]
      split
      · simp
      · have ih := npArgmin_lt_length (y :: l) (by simp)
        simp only [List.length_cons] at ih ⊢
        omega

theorem getD_npArgmin : ∀ (l : List ℚ), l ≠ [] →
    l.getD (npArgmin l) 0 = npMin l
  | [], h => absurd rfl h
  | [x], _ => by simp [npArgmin, npMin]
  | x :: y :: l, _ => by
      simp only [npArgmin, npMin]
      split
      case isTrue hle =>
        simp only [List.getD_cons_zero]
        exact (min_eq_left hle).symm
      case isFalse hgt =>
        simp only [List.getD_cons_succ]
        rw [getD_npArgmin (y :: l) (by simp)]
        exact (min_eq_right (le_of_not_le hgt)).symm

theorem npArgmin_first : ∀ (l : List ℚ) (k : Nat), k < npArgmin l →
    npMin l < l.getD k 0
  | [], k, h => by simp [npArgmin] at h
  | [x], k, h => by simp [npArgmin] at h
  | x :: y :: l, k, h => by
      simp only [npArgmin] at h
      split at h
      · omega
      case isFalse hgt =>
        match k with
        | 0 =>
          simp only [npMin, List.getD_cons_zero]
          exact lt_of_le_of_lt (min_le_right _ _) (lt_of_not_le hgt)
        | k + 1 =>
          simp only [npMin, List.getD_cons_succ]
          exact lt_of_le_of_lt (min_le_right _ _)
            (npArgmin_first (y :: l) k (by omega))

theorem getD_map_abs (f : ℚ → ℚ) : ∀ (l : List ℚ) (k : Nat), k < l.length →
    (l.map f).getD k 0 = f (l.getD k 0)
  | [], k, h => absurd h (by simp)
  | x :: l, 0, _ => by simp
  | x :: l, k + 1, h => by
      simp only [List.map_cons, List.getD_cons_succ]
      exact getD_map_abs f l k (by simpa using h)

theorem getD_zipWith (f : ℚ → ℚ → ℚ) : ∀ (as bs : List ℚ) (k : Nat),
    k < as.length → k < bs.length →
    (List.zipWith f as bs).getD k 0 = f (as.getD k 0) (bs.getD k 0)
  | [], _, k, h1, _ => absurd h1 (by simp)
  | _ :: _, [], k, _, h2 => absurd h2 (by simp)
  | a :: as, b :: bs, 0, _, _ => by simp
  | a :: as, b :: bs, k + 1, h1, h2 => by
      simp only [List.zipWith_cons_cons, List.getD_cons_succ]
      exact getD_zipWith f as bs k (by simpa using h1) (by simpa using h2)

theorem npArgmin_spec (l : List ℚ) (h : l ≠ []) :
    npArgmin l < l.length ∧
    (∀ k, k < l.length → l.getD (npArgmin l) 0 ≤ l.getD k 0) ∧
    (∀ k, k < npArgmin l → l.getD (npArgmin l) 0 < l.getD k 0) := by
  refine ⟨npArgmin_lt_length l h, ?_, ?_⟩
  · intro k hk
    rw [getD_npArgmin l h]
    exact npMin_le_getD l k hk
  · intro k hk
    rw [getD_npArgmin l h]
    exact npArgmin_first l k hk

/-- C3: get_process_type succeeds on every recognized dataset type with a
single handler string, returning format VOL except for SUN_HITS (format
SUN_HITS) and POINT_MEASUREMENT (format TIMESERIES); in particular RAW
maps to (process_raw, VOL). -/
theorem get_process_type_total :
    (∀ name ∈ recognized_dataset_types,
      (get_process_type name).toOption.map Prod.snd =
        some (if name = "SUN_HITS" then "SUN_HITS"
              else if name = "POINT_MEASUREMENT" then "TIMESERIES"
              else "VOL")) ∧
    get_process_type "RAW" = Except.ok ("process_raw", "VOL") :=
  ⟨by decide, rfl⟩

theorem get_process_type_total_witness :
    (get_process_type "POINT_MEASUREMENT").toOption.map Prod.snd =
      some "TIMESERIES" := by
  have h := get_process_type_total.1 "POINT_MEASUREMENT" (by decide)
  simpa using h

/-- C4: for every dataset type outside the recognized set, get_process_type
raises ValueError with a message carrying the offending name, returning no
(handler, format) pair. -/
theorem get_process_type_unknown (name : String)
    (h : name ∉ recognized_dataset_types) :
    get_process_type name =
      Except.error ("ERROR: Unknown dataset type " ++ name) := by
  simp only [recognized_dataset_types, List.mem_cons, List.not_mem_nil,
    or_false, not_or] at h
  obtain ⟨h1, h2, h3, h4, h5, h6, h7, h8, h9, h10, h11, h12, h13, h14, h15,
    h16, h17, h18, h19, h20, h21, h22, h23, h24, h25, h26, h27, h28, h29,
    h30, h31⟩ := h
  simp [get_process_type, h1, h2, h3, h4, h5, h6, h7, h8, h9, h10, h11, h12,
    h13, h14, h15, h16, h17, h18, h19, h20, h21, h22, h23, h24, h25, h26,
    h27, h28, h29, h30, h31]

theorem get_process_type_unknown_witness :
    get_process_type "NOT_A_REAL_OP" =
      Except.error ("ERROR: Unknown dataset type " ++ "NOT_A_REAL_OP") :=
  get_process_type_unknown "NOT_A_REAL_OP" (by decide)

/-- C8: each of the three processing routines, invoked with a procstatus
other than 1 (0 for INIT or 2 for POST), returns no result, for every
configuration and volume. -/
theorem lifecycle_non_process_no_result (env : PyartEnv) (procstatus : ℤ)
    (dscfg : DsCfg) (radar : Radar) (opt : Option Radar)
    (h : procstatus ≠ 1) :
    process_raw procstatus dscfg opt = none ∧
    process_save_radar procstatus dscfg opt = none ∧
    process_point_measurement env procstatus dscfg radar =
      ([], Except.ok none) := by
  refine ⟨?_, ?_, ?_⟩
  · unfold process_raw
    rw [if_pos h]
  · unfold process_save_radar
    rw [if_pos h]
  · unfold process_point_measurement
    rw [if_pos h]

theorem lifecycle_non_process_no_result_witness :
    (process_raw 0 wcfg (some wradar) = none ∧
     process_save_radar 0 wcfg (some wradar) = none ∧
     process_point_measurement env0 0 wcfg wradar = ([], Except.ok none)) ∧
    (process_raw 2 wcfg (some wradar) = none ∧
     process_save_radar 2 wcfg (some wradar) = none ∧
     process_point_measurement env0 2 wcfg wradar = ([], Except.ok none)) :=
  ⟨lifecycle_non_process_no_result env0 0 wcfg wradar (some wradar) (by decide),
   lifecycle_non_process_no_result env0 2 wcfg wradar (some wradar) (by decide)⟩

/-- C9: in the PROCESS phase process_raw returns a deep copy of the input
volume whose content (every attribute, every field array) equals the
input volume; the embedding is pure, so the input volume itself is a value
the call cannot alter. -/
theorem process_raw_deepcopy (dscfg : DsCfg) (radar : Radar) :
    process_raw 1 dscfg (some radar) = some (deepcopy_Radar radar) ∧
    deepcopy_Radar radar = radar := by
  constructor
  · simp [process_raw]
  · have hd : deepcopy_list = id := funext fun l => List.map_id l
    simp [deepcopy_Radar, hd, List.map_id, List.map_id', Prod.mk.eta]

/-- C7: when the selected field is absent from the volume field mapping,
process_point_measurement in the PROCESS phase returns no result together
with the field-not-available diagnostic, for every configuration (both
input modes, so before any coordinate geometry) and without raising. -/
theorem point_measurement_field_not_available (env : PyartEnv)
    (dscfg : DsCfg) (radar : Radar)
    (h : radar.fields.lookup
      (env.get_fieldname_pyart
        (env.get_datatype_fields (dscfg.datatype.getD 0 "")).2.1) = none) :
    process_point_measurement env 1 dscfg radar =
      ([Warn.fieldNotAvailable], Except.ok none) := by
  unfold process_point_measurement
  rw [if_neg (by decide : ¬ ((1 : ℤ) ≠ 1))]
  simp only [h]

theorem point_measurement_field_not_available_witness :
    process_point_measurement env0 1 no_field_cfg wradar =
      ([Warn.fieldNotAvailable], Except.ok none) :=
  point_measurement_field_not_available env0 no_field_cfg wradar (by decide)

/-- C5 evaluation, antenna mode: with latlon false and the field present,
process_point_measurement reaches line 281, whose call to the unbound name
antenna_to_cartesian raises NameError instead of completing with a record
built from the configured (azi, ele, rng). -/
theorem antenna_mode_raises_name_error :
    process_point_measurement env0 1 antenna_cfg wradar =
      ([], Except.error (PyErr.nameError "antenna_to_cartesian")) := rfl

/-- C2: after the antenna coordinates (az, el, r) are known, the three
gates run in the order azimuth, elevation, range: if the global minimum
azimuth distance exceeds AziTol the routine returns no result with one
diagnostic carrying the requested triple and the measured minimum
distance, whatever the elevation and range data and tolerances are
(the later axes are not checked); analogously for elevation and range.
On the example volume with ray azimuths 10, 20, 30 and query azimuth 25,
AziTol 3 fails with minimum distance 5 while AziTol 6 yields a record. -/
theorem tolerance_gates_in_order (env : PyartEnv) (dscfg : DsCfg)
    (radar : Radar) (datatype : String) (data : List (List ℚ))
    (lon lat alt az el r : ℚ) :
    (dscfg.AziTol < npMin (radar.azimuth.map (fun v => npAbs (v - az))) →
      select_point_record env dscfg radar datatype data lon lat alt az el r =
        ([Warn.noBinAz az el r
           (npMin (radar.azimuth.map (fun v => npAbs (v - az))))], none)) ∧
    (npMin (radar.azimuth.map (fun v => npAbs (v - az))) ≤ dscfg.AziTol →
     dscfg.EleTol < npMin (radar.elevation.map (fun v => npAbs (v - el))) →
      select_point_record env dscfg radar datatype data lon lat alt az el r =
        ([Warn.noBinEl az el r
           (npMin (radar.elevation.map (fun v => npAbs (v - el))))], none)) ∧
    (npMin (radar.azimuth.map (fun v => npAbs (v - az))) ≤ dscfg.AziTol →
     npMin (radar.elevation.map (fun v => npAbs (v - el))) ≤ dscfg.EleTol →
     dscfg.RngTol < npMin (radar.range.map (fun v => npAbs (v - r))) →
      select_point_record env dscfg radar datatype data lon lat alt az el r =
        ([Warn.noBinRng az el r
           (npMin (radar.range.map (fun v => npAbs (v - r))))], none)) ∧
    select_point_record env (gates_cfg 3) radar_gates "dBZ"
        [[1, 2], [3, 4], [5, 6]] 0 0 0 25 0 1000 =
      ([Warn.noBinAz 25 0 1000 5], none) ∧
    (∃ rec, select_point_record env (gates_cfg 6) radar_gates "dBZ"
        [[1, 2], [3, 4], [5, 6]] 0 0 0 25 0 1000 = ([], some rec)) := by
  refine ⟨fun hg => ?_, fun g1 g2 => ?_, fun g1 g2 g3 => ?_, ?_, ?_⟩
  · simp only [select_point_record]
    rw [if_pos hg]
  · simp only [select_point_record]
    rw [if_neg (not_lt.mpr g1), if_pos g2]
  · simp only [select_point_record]
    rw [if_neg (not_lt.mpr g1), if_neg (not_lt.mpr g2), if_pos g3]
  · norm_num [select_point_record, radar_gates, gates_cfg, npMin, npAbs,
      min_def]
  · refine ⟨⟨3, "dBZ", env.num2date 0 "u" "c", (0, 0, 0), (25, 0, 1000),
      (20, 0, 1000)⟩, ?_⟩
    norm_num [select_point_record, radar_gates, gates_cfg, npMin, npAbs,
      npArgmin, min_def]

theorem tolerance_gates_in_order_witness :
    select_point_record env0 (gates_cfg 3) radar_gates "dBZ"
        [[1, 2], [3, 4], [5, 6]] 0 0 0 25 0 1000 =
      ([Warn.noBinAz 25 0 1000
         (npMin (radar_gates.azimuth.map (fun v => npAbs (v - 25))))], none) :=
  (tolerance_gates_in_order env0 (gates_cfg 3) radar_gates "dBZ"
      [[1, 2], [3, 4], [5, 6]] 0 0 0 25 0 1000).1
    (by norm_num [gates_cfg, radar_gates, npMin, npAbs, min_def])

/-- C1: when all three tolerance checks pass, select_point_record returns a
record; the selected ray index is the least index minimising the combined
distance npAbs (azimuth i - az) + npAbs (elevation i - el) over the rays
(joint, with ties resolved by lowest index), the selected bin index is the
least index minimising npAbs (range j - r) over the bins, and the used
antenna coordinates of the record are exactly the stored azimuth, elevation
and range at those indices, while the requested antenna coordinates stay
(az, el, r). -/
theorem point_selection_argmin (env : PyartEnv) (dscfg : DsCfg)
    (radar : Radar) (datatype : String) (data : List (List ℚ))
    (lon lat alt az el r : ℚ)
    (hray : radar.azimuth ≠ [])
    (hlen : radar.elevation.length = radar.azimuth.length)
    (hbin : radar.range ≠ [])
    (h1 : npMin (radar.azimuth.map (fun v => npAbs (v - az))) ≤ dscfg.AziTol)
    (h2 : npMin (radar.elevation.map (fun v => npAbs (v - el))) ≤ dscfg.EleTol)
    (h3 : npMin (radar.range.map (fun v => npAbs (v - r))) ≤ dscfg.RngTol) :
    ∃ rec i j,
      select_point_record env dscfg radar datatype data lon lat alt az el r
        = ([], some rec) ∧
      i < radar.azimuth.length ∧
      (∀ k, k < radar.azimuth.length →
        npAbs (radar.azimuth.getD i 0 - az) +
          npAbs (radar.elevation.getD i 0 - el) ≤
        npAbs (radar.azimuth.getD k 0 - az) +
          npAbs (radar.elevation.getD k 0 - el)) ∧
      (∀ k, k < i →
        npAbs (radar.azimuth.getD i 0 - az) +
          npAbs (radar.elevation.getD i 0 - el) <
        npAbs (radar.azimuth.getD k 0 - az) +
          npAbs (radar.elevation.getD k 0 - el)) ∧
      j < radar.range.length ∧
      (∀ k, k < radar.range.length →
        npAbs (radar.range.getD j 0 - r) ≤ npAbs (radar.range.getD k 0 - r)) ∧
      (∀ k, k < j →
        npAbs (radar.range.getD j 0 - r) < npAbs (radar.range.getD k 0 - r)) ∧
      rec.antenna_coordinates_az_el_r = (az, el, r) ∧
      rec.used_antenna_coordinates_az_el_r =
        (radar.azimuth.getD i 0, radar.elevation.getD i 0,
         radar.range.getD j 0) := by
  have hAlen : 0 < radar.azimuth.length := List.length_pos.mpr hray
  have hRlen : 0 < radar.range.length := List.length_pos.mpr hbin
  set D := List.zipWith (fun a e => npAbs (a - az) + npAbs (e - el))
    radar.azimuth radar.elevation with hDdef
  set R := radar.range.map (fun v => npAbs (v - r)) with hRdef
  have hDlen : D.length = radar.azimuth.length := by
    rw [hDdef, List.length_zipWith, hlen, min_self]
  have hRlen2 : R.length = radar.range.length := by
    rw [hRdef, List.length_map]
  have hDne : D ≠ [] := by
    rw [← List.length_pos, hDlen]
    exact hAlen
  have hRne : R ≠ [] := by
    rw [← List.length_pos, hRlen2]
    exact hRlen
  obtain ⟨hilt, hile, hilow⟩ := npArgmin_spec D hDne
  obtain ⟨hjlt, hjle, hjlow⟩ := npArgmin_spec R hRne
  have hiA : npArgmin D < radar.azimuth.length := by
    rw [← hDlen]
    exact hilt
  have hjA : npArgmin R < radar.range.length := by
    rw [← hRlen2]
    exact hjlt
  have hDat : ∀ k, k < radar.azimuth.length →
      D.getD k 0 =
        npAbs (radar.azimuth.getD k 0 - az) +
          npAbs (radar.elevation.getD k 0 - el) := by
    intro k hk
    have h := getD_zipWith (fun a e => npAbs (a - az) + npAbs (e - el))
      radar.azimuth radar.elevation k hk (by rw [hlen]; exact hk)
    rw [hDdef]
    simpa using h
  have hRat : ∀ k, k < radar.range.length →
      R.getD k 0 = npAbs (radar.range.getD k 0 - r) := by
    intro k hk
    have h := getD_map_abs (fun v => npAbs (v - r)) radar.range k hk
    rw [hRdef]
    simpa using h
  have hsel : select_point_record env dscfg radar datatype data lon lat alt
      az el r
      = ([], some ⟨(data.getD (npArgmin D) []).getD (npArgmin R) 0, datatype,
          env.num2date (radar.time.getD (npArgmin D) 0) radar.time_units
            radar.time_calendar,
          (lon, lat, alt), (az, el, r),
          (radar.azimuth.getD (npArgmin D) 0,
           radar.elevation.getD (npArgmin D) 0,
           radar.range.getD (npArgmin R) 0)⟩) := by
    simp only [select_point_record]
    rw [if_neg (not_lt.mpr h1), if_neg (not_lt.mpr h2), if_neg (not_lt.mpr h3)]
  refine ⟨_, npArgmin D, npArgmin R, hsel, hiA, ?_, ?_, hjA, ?_, ?_, rfl, rfl⟩
  · intro k hk
    rw [← hDat (npArgmin D) hiA, ← hDat k hk]
    exact hile k (by rw [hDlen]; exact hk)
  · intro k hk
    have hkA : k < radar.azimuth.length := lt_trans hk hiA
    rw [← hDat (npArgmin D) hiA, ← hDat k hkA]
    exact hilow k hk
  · intro k hk
    rw [← hRat (npArgmin R) hjA, ← hRat k hk]
    exact hjle k (by rw [hRlen2]; exact hk)
  · intro k hk
    have hkA : k < radar.range.length := lt_trans hk hjA
    rw [← hRat (npArgmin R) hjA, ← hRat k hkA]
    exact hjlow k hk

theorem point_selection_argmin_witness :
    ∃ rec i j,
      select_point_record env0 wcfg wradar "dBZ" [[1, 2], [3, 4]] 0 0 0
          10 4 1600
        = ([], some rec) ∧
      i < wradar.azimuth.length ∧
      (∀ k, k < wradar.azimuth.length →
        npAbs (wradar.azimuth.getD i 0 - 10) +
          npAbs (wradar.elevation.getD i 0 - 4) ≤
        npAbs (wradar.azimuth.getD k 0 - 10) +
          npAbs (wradar.elevation.getD k 0 - 4)) ∧
      (∀ k, k < i →
        npAbs (wradar.azimuth.getD i 0 - 10) +
          npAbs (wradar.elevation.getD i 0 - 4) <
        npAbs (wradar.azimuth.getD k 0 - 10) +
          npAbs (wradar.elevation.getD k 0 - 4)) ∧
      j < wradar.range.length ∧
      (∀ k, k < wradar.range.length →
        npAbs (wradar.range.getD j 0 - 1600) ≤
          npAbs (wradar.range.getD k 0 - 1600)) ∧
      (∀ k, k < j →
        npAbs (wradar.range.getD j 0 - 1600) <
          npAbs (wradar.range.getD k 0 - 1600)) ∧
      rec.antenna_coordinates_az_el_r = (10, 4, 1600) ∧
      rec.used_antenna_coordinates_az_el_r =
        (wradar.azimuth.getD i 0, wradar.elevation.getD i 0,
         wradar.range.getD j 0) :=
  point_selection_argmin env0 wcfg wradar "dBZ" [[1, 2], [3, 4]] 0 0 0
    10 4 1600
    (by simp [wradar]) (by simp [wradar]) (by simp [wradar])
    (by norm_num [wradar, wcfg, npMin, npAbs, min_def])
    (by norm_num [wradar, wcfg, npMin, npAbs, min_def])
    (by norm_num [wradar, wcfg, npMin, npAbs, min_def])

theorem beam_height_code_eq_spec (sqrt cos sin : ℚ → ℚ) (alt0 rg t : ℚ) :
    alt0 + sqrt ((rg / cos t) ^ 2 + ((6378100 : ℚ) * (4 / 3)) ^ 2 +
        2 * (rg / cos t) * ((6378100 : ℚ) * (4 / 3)) * sin t) -
      (6378100 : ℚ) * (4 / 3) - alt0 =
    spec_beam_height_above_radar sqrt cos sin rg t := by
  have h63 : (6378100 : ℚ) * (4 / 3) = 4 / 3 * 6378100 := by norm_num
  simp only [spec_beam_height_above_radar]
  rw [h63]
  ring

/-- C6: in geographic mode with truealt false, process_point_measurement
computes the height above the radar passed to the cartesian-to-antenna
conversion as the spec beam model evaluated at ground range
sqrt(x^2 + y^2) and at the configured elevation converted to radians
(equivalently, target absolute altitude minus the radar altitude, the
target altitude being radar altitude plus sqrt(r^2 + re^2 +
2 r re sin(el)) - re with re = (4/3) 6378100 and r the slant range
r_ground / cos(el)); with truealt true the configured altitude is used
directly. -/
theorem geographic_mode_beam_height (env : PyartEnv) (dscfg : DsCfg)
    (radar : Radar) (data : List (List ℚ))
    (hll : dscfg.latlon = true)
    (hf : radar.fields.lookup
      (env.get_fieldname_pyart
        (env.get_datatype_fields (dscfg.datatype.getD 0 "")).2.1) =
      some data) :
    (dscfg.truealt = false →
      process_point_measurement env 1 dscfg radar =
        (let xy := env.geographic_to_cartesian dscfg.lon dscfg.lat
          (radar.longitude, radar.latitude)
         let hgt := spec_beam_height_above_radar env.sqrt env.cos env.sin
          (env.sqrt (xy.1 ^ 2 + xy.2 ^ 2)) (dscfg.ele * env.pi / 180)
         let rae := env.cartesian_to_antenna xy.1 xy.2 hgt
         let res := select_point_record env dscfg radar
          (env.get_datatype_fields (dscfg.datatype.getD 0 "")).2.1 data
          dscfg.lon dscfg.lat dscfg.alt rae.2.1 rae.2.2 rae.1
         (res.1, Except.ok res.2))) ∧
    (dscfg.truealt = true →
      process_point_measurement env 1 dscfg radar =
        (let xy := env.geographic_to_cartesian dscfg.lon dscfg.lat
          (radar.longitude, radar.latitude)
         let rae := env.cartesian_to_antenna xy.1 xy.2
          (dscfg.alt - radar.altitude)
         let res := select_point_record env dscfg radar
          (env.get_datatype_fields (dscfg.datatype.getD 0 "")).2.1 data
          dscfg.lon dscfg.lat dscfg.alt rae.2.1 rae.2.2 rae.1
         (res.1, Except.ok res.2))) := by
  constructor
  · intro hta
    unfold process_point_measurement
    rw [if_neg (by decide : ¬ ((1 : ℤ) ≠ 1))]
    simp only [hf, hll, hta, Bool.not_false, eq_self_iff_true, if_true]
    rw [beam_height_code_eq_spec env.sqrt env.cos env.sin]
  · intro hta
    unfold process_point_measurement
    rw [if_neg (by decide : ¬ ((1 : ℤ) ≠ 1))]
    simp only [hf, hll, hta, Bool.not_true, eq_self_iff_true, if_true,
      Bool.false_eq_true, if_false]

theorem geographic_mode_beam_height_witness :
    process_point_measurement env0 1 geo_cfg wradar =
      (let xy := env0.geographic_to_cartesian geo_cfg.lon geo_cfg.lat
        (wradar.longitude, wradar.latitude)
       let hgt := spec_beam_height_above_radar env0.sqrt env0.cos env0.sin
        (env0.sqrt (xy.1 ^ 2 + xy.2 ^ 2)) (geo_cfg.ele * env0.pi / 180)
       let rae := env0.cartesian_to_antenna xy.1 xy.2 hgt
       let res := select_point_record env0 geo_cfg wradar
        (env0.get_datatype_fields (geo_cfg.datatype.getD 0 "")).2.1
        [[1, 2], [3, 4]] geo_cfg.lon geo_cfg.lat geo_cfg.alt
        rae.2.1 rae.2.2 rae.1
       (res.1, Except.ok res.2)) :=
  (geographic_mode_beam_height env0 geo_cfg wradar [[1, 2], [3, 4]]
    rfl rfl).1 rfl

/-- C10: a volume and a configuration where the three per axis tolerance
gates all pass, yet the ray selected by the combined azimuth plus
elevation argmin lies farther from the requested azimuth than AziTol: the
gates bound only the global per axis minima, not the coordinates of the
jointly selected ray. -/
theorem gates_pass_selected_ray_out_of_tolerance :
    ∃ (radar : Radar) (dscfg : DsCfg) (az el r : ℚ) (rec : PointRecord),
      npMin (radar.azimuth.map (fun v => npAbs (v - az))) ≤ dscfg.AziTol ∧
      npMin (radar.elevation.map (fun v => npAbs (v - el))) ≤ dscfg.EleTol ∧
      npMin (radar.range.map (fun v => npAbs (v - r))) ≤ dscfg.RngTol ∧
      select_point_record env0 dscfg radar "dBZ" [[1], [2]] 0 0 0 az el r =
        ([], some rec) ∧
      dscfg.AziTol < npAbs (rec.used_antenna_coordinates_az_el_r.1 - az) := by
  refine ⟨⟨[0, 10], [11, 0], [1000], [0, 0], "u", "c", [("dBZ", [[1], [2]])],
      0, 0, 0⟩,
    ⟨["dBZ"], true, true, 0, 0, 0, 0, 0, 0, 1, 1, 5⟩,
    0, 0, 1000, ⟨2, "dBZ", 0, (0, 0, 0), (0, 0, 1000), (10, 0, 1000)⟩,
    ?_, ?_, ?_, ?_, ?_⟩
  · norm_num [npMin, npAbs, min_def]
  · norm_num [npMin, npAbs, min_def]
  · norm_num [npMin, npAbs, min_def]
  · norm_num [select_point_record, npMin, npAbs, npArgmin, min_def, env0]
  · norm_num [npAbs]

theorem npAbs_eq_abs (q : ℚ) : npAbs q = |q| := by
  unfold npAbs
  split
  case isTrue h => exact (abs_of_neg h).symm
  case isFalse h => exact (abs_of_nonneg (not_lt.mp h)).symm
